import Mathlib

/-!
Shallow embedding of `src/p.py` (a command-line video blackout utility that
drives an external media tool), together with theorems settling the spec
claims.  Strings are modelled as `List Char` (the character sequence of a
Python `str`); argument vectors as `List (List Char)`.  The parts of the
world the program observes (probe outcomes, file-system facts, the child
process run) are collected in an `Env` record, and the Python functions
become pure Lean functions over it.  Subprocess invocations are recorded in
a trace of `Spawn` events.
-/

namespace CensorVideo

/-- The single-quote character (written via its code point to keep string
literals free of quote characters). -/
def sq : Char := Char.ofNat 39

/-- The backslash character. -/
def bsl : Char := Char.ofNat 92

/-- Python `s.replace(old, new)` restricted to a single-character pattern
`old`, on the character-list view of the string: each occurrence of `old` is
replaced by `new`, scanning left to right, never rescanning the replacement
text. -/
def replaceChar (old : Char) (new : List Char) : List Char → List Char
  | [] => []
  | c :: cs =>
    if c = old then new ++ replaceChar old new cs
    else c :: replaceChar old new cs

/-- The replacement written in the source for a single quote, the Python
literal "'\\\\\\''": quote, backslash, backslash, backslash, quote, quote. -/
def quoteSeq : List Char := [sq, bsl, bsl, bsl, sq, sq]

/-- The replacement written in the source for a colon, the Python literal
"\\:": backslash, colon. -/
def colonSeq : List Char := [bsl, ':']

/-- Line 166 of the source:
`text.replace("'", "'\\\\\\''").replace(":", "\\:")` —
first every single quote is replaced, then every colon. -/
def escaped_text (text : List Char) : List Char :=
  replaceChar ':' colonSeq (replaceChar sq quoteSeq text)

/-- The bare executable name probed on the search path. -/
def ffmpegName : List Char := "ffmpeg".toList

/-- The version-query flag used by both probes. -/
def versionFlag : List Char := "-version".toList

/-- First fixed Windows fallback path checked by the source. -/
def winProgramFilesPath : List Char := "C:\\Program Files\\ffmpeg\\bin\\ffmpeg.exe".toList

/-- Second fixed Windows fallback path checked by the source. -/
def winCDrivePath : List Char := "C:\\ffmpeg\\bin\\ffmpeg.exe".toList

/-- The `-vf` filter expression built at lines 173-182 of the source: a
drawbox black fill, a comma, and a drawtext of the escaped text with the
given font size and color at centered coordinates.  The font size is an
`Int` (Python `int`), rendered in decimal as by an f-string. -/
def filterExpr (escTxt : List Char) (fontSize : Int) (fontColor : List Char) : List Char :=
  "drawbox=color=black@1.0:t=fill,drawtext=text=".toList
    ++ [sq] ++ escTxt ++ [sq]
    ++ ":fontsize=".toList ++ (toString fontSize).toList
    ++ ":fontcolor=".toList ++ fontColor
    ++ ":x=(w-text_w)/2:y=(h-text_h)/2".toList

/-- The argument vector assembled at lines 170-186 of the source. -/
def buildCommand (ffmpegPath input output text : List Char)
    (fontSize : Int) (fontColor : List Char) : List (List Char) :=
  [ffmpegPath,
   "-i".toList, input,
   "-vf".toList, filterExpr (escaped_text text) fontSize fontColor,
   "-c:a".toList, "copy".toList,
   "-y".toList,
   output]

/-- The drawbox stage exactly as the specification describes it: fill the
frame with opaque black. -/
def drawboxSpec : List Char := "drawbox=color=black@1.0:t=fill".toList

/-- The drawtext stage exactly as the specification describes it: render
the escaped text with the requested font size and color at
x=(w-text_w)/2, y=(h-text_h)/2. -/
def drawtextSpec (escTxt : List Char) (fontSize : Int) (fontColor : List Char) : List Char :=
  "drawtext=text=".toList ++ [sq] ++ escTxt ++ [sq]
    ++ ":fontsize=".toList ++ (toString fontSize).toList
    ++ ":fontcolor=".toList ++ fontColor
    ++ ":x=(w-text_w)/2:y=(h-text_h)/2".toList

/-- The argument vector as the specification words it: the tool path, then
`-i input`, `-vf filter`, `-c:a copy`, `-y`, `output`, in that order, where
the filter is the drawbox black fill followed (after a comma, the filter
chain separator) by the centered drawtext of the escaped text. -/
def commandSpec (ffmpegPath input output text : List Char)
    (fontSize : Int) (fontColor : List Char) : List (List Char) :=
  [ffmpegPath] ++ ["-i".toList, input]
    ++ ["-vf".toList, drawboxSpec ++ [','] ++ drawtextSpec (escaped_text text) fontSize fontColor]
    ++ ["-c:a".toList, "copy".toList]
    ++ ["-y".toList]
    ++ [output]

/-- The per-character escaping map the claim C2 describes: a single quote
becomes quote-backslash-backslash-backslash-quote-quote, a colon becomes
backslash-colon, every other character is left unchanged. -/
def escapeCharSpec (c : Char) : List Char :=
  if c = sq then quoteSeq
  else if c = ':' then colonSeq
  else [c]

theorem replaceChar_append (old : Char) (new : List Char) (xs ys : List Char) :
    replaceChar old new (xs ++ ys) = replaceChar old new xs ++ replaceChar old new ys := by
  induction xs with
  | nil => rfl
  | cons c cs ih =>
    by_cases h : c = old <;> simp [replaceChar, h, ih]

theorem replaceChar_colon_quoteSeq : replaceChar ':' colonSeq quoteSeq = quoteSeq := by
  decide

/-- C2: the escaped text equals the original text with each character sent
through the two-character escaping map, i.e. the two sequential replaces
act as one simultaneous per-character substitution. -/
theorem escaped_text_eq_bind (t : List Char) :
    escaped_text t = t.flatMap escapeCharSpec := by
  induction t with
  | nil => rfl
  | cons c cs ih =>
    by_cases hq : c = sq
    · subst hq
      simp only [escaped_text, replaceChar, if_pos rfl, replaceChar_append,
        replaceChar_colon_quoteSeq, List.flatMap_cons]
      rw [escapeCharSpec, if_pos rfl]
      exact congrArg (quoteSeq ++ ·) ih
    · by_cases hc : c = ':'
      · subst hc
        have hne : (':' : Char) ≠ sq := by decide
        simp only [escaped_text, replaceChar, if_neg hne, if_pos rfl, List.flatMap_cons]
        rw [escapeCharSpec, if_neg hne, if_pos rfl]
        exact congrArg (colonSeq ++ ·) ih
      · simp only [escaped_text, replaceChar, if_neg hq, if_neg hc, List.flatMap_cons]
        rw [escapeCharSpec, if_neg hq, if_neg hc]
        exact congrArg (c :: ·) ih

/-- Outcome of the `subprocess.run` version probe in `find_ffmpeg`
(lines 17-27): the probe completed within its timeout with some exit code,
or the executable was missing (FileNotFoundError), or it timed out
(TimeoutExpired).  The latter two are the exceptions the source catches. -/
inductive ProbeResult where
  | completed (exitCode : Int)
  | fileNotFound
  | timeout
deriving DecidableEq

/-- Outcome of the second `subprocess.run` probe in `check_ffmpeg`
(lines 69-84): completed, timed out, or raised some other exception (the
bare `except Exception` arm). -/
inductive Probe2Result where
  | completed (exitCode : Int)
  | timeout
  | raised
deriving DecidableEq

/-- Outcome of the `try` block of `process_video` around the `Popen` run
(lines 194-257): the run proceeded to `process.wait()` normally, or a
TimeoutExpired was raised, or some other exception was raised. -/
inductive RunEvent where
  | normal
  | raisedTimeout
  | raisedOther
deriving DecidableEq

/-- The facts of the outside world that one run of the program observes:
probe outcomes, platform, fallback-install locations, input and output
file-system state, and the child process run's result. -/
structure Env where
  /-- Outcome of the bare-name `ffmpeg -version` probe via the search path. -/
  pathProbe : ProbeResult
  /-- Whether `sys.platform == 'win32'`. -/
  isWin32 : Bool
  /-- The matches of the WinGet install-root glob, in order. -/
  wingetMatches : List (List Char)
  /-- Whether `C:\Program Files\ffmpeg\bin\ffmpeg.exe` exists. -/
  programFilesHit : Bool
  /-- Whether `C:\ffmpeg\bin\ffmpeg.exe` exists. -/
  cDriveHit : Bool
  /-- Outcome of the second version probe, on the resolved path. -/
  resolvedProbe : Probe2Result
  /-- Whether the input path exists. -/
  inputExists : Bool
  /-- Whether the input path is a regular file. -/
  inputIsFile : Bool
  /-- The input file's size in bytes. -/
  inputSize : Nat
  /-- Whether the output path's parent directory exists. -/
  parentDirExists : Bool
  /-- Whether the output path's parent directory is writable. -/
  parentDirWritable : Bool
  /-- Whether the output file already exists before the run. -/
  outputPreExists : Bool
  /-- How the child-process run concluded. -/
  runEvent : RunEvent
  /-- The child process's exit code (read when `runEvent` is `normal`). -/
  runReturnCode : Int
  /-- The retained output lines of the child process (newline-stripped). -/
  runOutput : List (List Char)
  /-- Whether the output file exists after the run. -/
  outputExistsAfter : Bool
  /-- The output file's size in bytes after the run. -/
  outputSizeAfter : Nat
deriving DecidableEq

/-- `find_ffmpeg` (lines 14-50): if the bare-name probe completes within the
timeout — whatever its exit code — the bare name is returned; on
FileNotFoundError or TimeoutExpired fall through to the Windows-only
fallbacks (the WinGet glob's first match, then two fixed paths); otherwise
return the absent sentinel `None`. -/
def find_ffmpeg (e : Env) : Option (List Char) :=
  match e.pathProbe with
  | .completed _ => some ffmpegName
  | _ =>
    if e.isWin32 then
      match e.wingetMatches with
      | m :: _ => some m
      | [] =>
        if e.programFilesHit then some winProgramFilesPath
        else if e.cDriveHit then some winCDrivePath
        else none
    else none

/-- `check_ffmpeg` (lines 53-84): resolve a path via `find_ffmpeg`; if
absent, return `None`; otherwise run the version probe again on the
resolved path, returning the path on completion and `None` on
TimeoutExpired or any other exception. -/
def check_ffmpeg (e : Env) : Option (List Char) :=
  match find_ffmpeg e with
  | none => none
  | some p =>
    match e.resolvedProbe with
    | .completed _ => some p
    | .timeout => none
    | .raised => none

/-- A recorded subprocess invocation: a `subprocess.run` version probe, or
the `subprocess.Popen` of the transcoding command. -/
inductive Spawn where
  | probe (cmd : List (List Char))
  | popen (cmd : List (List Char))
deriving DecidableEq

/-- The subprocess invocations made by `check_ffmpeg`: the bare-name probe
(always attempted by `find_ffmpeg`), and, when a path was resolved, the
second probe on that path. -/
def check_ffmpeg_spawns (e : Env) : List Spawn :=
  Spawn.probe [ffmpegName, versionFlag] ::
    (match find_ffmpeg e with
     | some p => [Spawn.probe [p, versionFlag]]
     | none => [])

/-- Does an outcome's trace contain the transcoding `Popen` invocation? -/
def popenLaunched (spawns : List Spawn) : Bool :=
  spawns.any fun s =>
    match s with
    | .popen _ => true
    | .probe _ => false

/-- `validate_input_file` (lines 87-112): false when the path does not
exist, is not a regular file, or has size zero; true otherwise. -/
def validate_input_file (e : Env) : Bool :=
  if e.inputExists = false then false
  else if e.inputIsFile = false then false
  else if e.inputSize = 0 then false
  else true

/-- `validate_output_path` (lines 115-134): returns the boolean result
paired with whether the existing-output warning was printed.  False when
the parent directory is missing or unwritable; otherwise true, warning
exactly when the output file already exists. -/
def validate_output_path (e : Env) : Bool × Bool :=
  if e.parentDirExists = false then (false, false)
  else if e.parentDirWritable = false then (false, false)
  else (true, e.outputPreExists)

/-- Line 225 of the source:
`all_output[-30:] if len(all_output) > 30 else all_output`. -/
def error_lines (allOutput : List (List Char)) : List (List Char) :=
  if allOutput.length > 30 then allOutput.drop (allOutput.length - 30)
  else allOutput

/-- The result of one `process_video` run: the boolean it returns, the
subprocess invocations it made, and the diagnostic lines it printed on a
non-zero child exit. -/
structure Outcome where
  success : Bool
  spawns : List Spawn
  diagLines : List (List Char)
deriving DecidableEq

/-- `process_video` (lines 137-257): check the tool, validate input and
output, build the command, run it, and decide success from the exit code
plus the post-hoc output-file check.  Early validation failures return
before the `Popen`; after the run, a non-zero exit code prints the trailing
`error_lines` and fails, and a zero exit still fails when the output file
is missing or empty. -/
def process_video (e : Env) (input output text : List Char)
    (fontSize : Int) (fontColor : List Char) : Outcome :=
  match check_ffmpeg e with
  | none => ⟨false, check_ffmpeg_spawns e, []⟩
  | some ffmpegPath =>
    if validate_input_file e = false then ⟨false, check_ffmpeg_spawns e, []⟩
    else if (validate_output_path e).fst = false then ⟨false, check_ffmpeg_spawns e, []⟩
    else
      match e.runEvent with
      | .raisedTimeout =>
        ⟨false, check_ffmpeg_spawns e
          ++ [Spawn.popen (buildCommand ffmpegPath input output text fontSize fontColor)], []⟩
      | .raisedOther =>
        ⟨false, check_ffmpeg_spawns e
          ++ [Spawn.popen (buildCommand ffmpegPath input output text fontSize fontColor)], []⟩
      | .normal =>
        if e.runReturnCode ≠ 0 then
          ⟨false, check_ffmpeg_spawns e
            ++ [Spawn.popen (buildCommand ffmpegPath input output text fontSize fontColor)],
           error_lines e.runOutput⟩
        else if e.outputExistsAfter = false then
          ⟨false, check_ffmpeg_spawns e
            ++ [Spawn.popen (buildCommand ffmpegPath input output text fontSize fontColor)], []⟩
        else if e.outputSizeAfter = 0 then
          ⟨false, check_ffmpeg_spawns e
            ++ [Spawn.popen (buildCommand ffmpegPath input output text fontSize fontColor)], []⟩
        else
          ⟨true, check_ffmpeg_spawns e
            ++ [Spawn.popen (buildCommand ffmpegPath input output text fontSize fontColor)], []⟩

/-- How argument parsing concluded in `main` (lines 293-300): parsed
successfully, or argparse raised SystemExit with the given code. -/
inductive ParseOutcome where
  | ok
  | err (code : Int)
deriving DecidableEq

/-- What interrupted the pipeline `try` block of `main` (lines 302-325):
nothing, a KeyboardInterrupt, or an unexpected exception. -/
inductive Disturbance where
  | normal
  | keyboardInterrupt
  | unexpectedExc
deriving DecidableEq

/-- `main` (lines 260-325), reduced to the process exit status it reaches:
a parse error re-exits with the parser's code; otherwise the pipeline runs,
exiting 0 on success and 1 on failure, KeyboardInterrupt, or any other
exception. -/
def main (p : ParseOutcome) (d : Disturbance) (e : Env)
    (input output text : List Char) (fontSize : Int) (fontColor : List Char) : Int :=
  match p with
  | .err c => c
  | .ok =>
    match d with
    | .keyboardInterrupt => 1
    | .unexpectedExc => 1
    | .normal =>
      if (process_video e input output text fontSize fontColor).success then 0 else 1

theorem drawCat :
    ("drawbox=color=black@1.0:t=fill,drawtext=text=".toList : List Char)
      = "drawbox=color=black@1.0:t=fill".toList ++ [','] ++ "drawtext=text=".toList := by
  decide

/-- C1: the argument vector the source constructs is exactly the vector the
specification describes — tool path, `-i input`, `-vf` with the
drawbox-then-drawtext filter over the escaped text, `-c:a copy`, `-y`,
output, in that order. -/
theorem buildCommand_matches_spec (p i o t : List Char) (fs : Int) (fc : List Char) :
    buildCommand p i o t fs fc = commandSpec p i o t fs fc := by
  unfold buildCommand commandSpec filterExpr drawboxSpec drawtextSpec
  rw [drawCat]
  simp [List.append_assoc]

theorem error_lines_drop (out : List (List Char)) :
    error_lines out = out.drop (out.length - min 30 out.length) := by
  unfold error_lines
  by_cases h : out.length > 30
  · rw [if_pos h, Nat.min_eq_left (le_of_lt h)]
  · rw [if_neg h]
    have h30 : min 30 out.length = out.length := Nat.min_eq_right (by omega)
    rw [h30, Nat.sub_self, List.drop_zero]

theorem error_lines_length (out : List (List Char)) :
    (error_lines out).length = min 30 out.length := by
  rw [error_lines_drop, List.length_drop]
  omega

theorem popen_not_in_probe_spawns (e : Env) :
    popenLaunched (check_ffmpeg_spawns e) = false := by
  unfold popenLaunched check_ffmpeg_spawns
  cases find_ffmpeg e <;> simp

/-- Sample input path used by concrete witnesses. -/
def inW : List Char := "in.mp4".toList

/-- Sample output path used by concrete witnesses. -/
def outW : List Char := "out.mp4".toList

/-- Sample display text used by concrete witnesses. -/
def txtW : List Char := "hello".toList

/-- Sample font color used by concrete witnesses. -/
def colW : List Char := "white".toList

/-- Environment for the C3 witness: tool found, both probes complete,
valid non-empty input, valid output directory, child exits 0, but the
output file does not exist afterwards.  Fields in declaration order. -/
def env3 : Env :=
  ⟨.completed 0, false, [], false, false, .completed 0,
   true, true, 1024, true, true, false, .normal, 0, [], false, 0⟩

/-- Environment for the C4 witness: like `env3` but the child exits with
code 1 after producing two retained output lines. -/
def env4 : Env :=
  ⟨.completed 0, false, [], false, false, .completed 0,
   true, true, 1024, true, true, false, .normal, 1,
   ["alpha".toList, "beta".toList], true, 100⟩

/-- Environment for C5: tool present on the search path (both probes ran
and completed), and the input file exists, is a regular file, and is
empty. -/
def env5 : Env :=
  ⟨.completed 0, false, [], false, false, .completed 0,
   true, true, 0, true, true, false, .normal, 0, [], true, 1⟩

/-- Environment for the C7 witness: parent directory exists and is
writable, and the destination file already exists. -/
def env7 : Env :=
  ⟨.completed 0, false, [], false, false, .completed 0,
   true, true, 5, true, true, true, .normal, 0, [], true, 1⟩

/-- Environment for the C8 witness: the bare-name probe times out, the
platform is Windows, and no fallback location matches. -/
def env8 : Env :=
  ⟨.timeout, true, [], false, false, .completed 0,
   true, true, 5, true, true, false, .normal, 0, [], true, 1⟩

/-- Environment for the C9 witness: the bare-name probe completes with a
non-zero exit status. -/
def env9 : Env :=
  ⟨.completed 1, false, [], false, false, .completed 0,
   true, true, 5, true, true, false, .normal, 0, [], true, 1⟩

/-- Environment for the C10 witness: the locator resolves the bare name,
but the second probe on the resolved path times out. -/
def env10 : Env :=
  ⟨.completed 0, false, [], false, false, .timeout,
   true, true, 5, true, true, false, .normal, 0, [], true, 1⟩

/-- C3: when the child process exits with code zero but the destination
file afterwards does not exist or has size zero, `process_video` returns
false. -/
theorem process_video_silent_failure (e : Env) (i o t : List Char) (fs : Int) (fc : List Char)
    (hrc : e.runReturnCode = 0)
    (hout : e.outputExistsAfter = false ∨ e.outputSizeAfter = 0) :
    (process_video e i o t fs fc).success = false := by
  unfold process_video
  split
  · rfl
  · split
    · rfl
    · split
      · rfl
      · split
        · rfl
        · rfl
        · rw [if_neg (by simp [hrc])]
          rcases hout with h | h
          · rw [if_pos h]
          · by_cases hex : e.outputExistsAfter = false
            · rw [if_pos hex]
            · rw [if_neg hex, if_pos h]

theorem process_video_silent_failure_witness :
    env3.runReturnCode = 0 ∧ env3.outputExistsAfter = false
    ∧ (process_video env3 inW outW txtW 48 colW).success = false :=
  ⟨rfl, rfl, process_video_silent_failure env3 inW outW txtW 48 colW rfl (Or.inl rfl)⟩

/-- C4: when the pipeline reaches the child run and the child exits with a
non-zero code, `process_video` fails and the diagnostic lines it prints
are exactly the last `min 30 n` of the `n` retained output lines. -/
theorem process_video_nonzero_exit_diag (e : Env) (p i o t : List Char) (fs : Int) (fc : List Char)
    (hp : check_ffmpeg e = some p)
    (hvi : validate_input_file e = true)
    (hvo : (validate_output_path e).fst = true)
    (hev : e.runEvent = .normal)
    (hrc : e.runReturnCode ≠ 0) :
    (process_video e i o t fs fc).success = false
    ∧ (process_video e i o t fs fc).diagLines
        = e.runOutput.drop (e.runOutput.length - min 30 e.runOutput.length)
    ∧ (process_video e i o t fs fc).diagLines.length = min 30 e.runOutput.length := by
  have hred : process_video e i o t fs fc
      = ⟨false,
         check_ffmpeg_spawns e ++ [Spawn.popen (buildCommand p i o t fs fc)],
         error_lines e.runOutput⟩ := by
    unfold process_video
    rw [hp]
    simp [hvi, hvo, hev, hrc]
  rw [hred]
  exact ⟨rfl, error_lines_drop e.runOutput, error_lines_length e.runOutput⟩

theorem process_video_nonzero_exit_diag_witness :
    (process_video env4 inW outW txtW 48 colW).success = false
    ∧ (process_video env4 inW outW txtW 48 colW).diagLines
        = env4.runOutput.drop (env4.runOutput.length - min 30 env4.runOutput.length)
    ∧ (process_video env4 inW outW txtW 48 colW).diagLines.length = min 30 env4.runOutput.length :=
  process_video_nonzero_exit_diag env4 ffmpegName inW outW txtW 48 colW
    rfl rfl rfl rfl (by decide)

/-- C5, as stated, is false: in the concrete run below the input file
exists, is a regular file, and has size zero, and `validate_input_file`
does return false — but a child process was launched all the same, because
`check_ffmpeg` runs the version-query probes before input validation. -/
theorem validate_input_empty_counterexample :
    env5.inputExists = true ∧ env5.inputIsFile = true ∧ env5.inputSize = 0
    ∧ validate_input_file env5 = false
    ∧ Spawn.probe [ffmpegName, versionFlag] ∈ (process_video env5 inW outW txtW 48 colW).spawns := by
  decide

/-- C5 (amended): for an existing, regular, zero-size input file,
`validate_input_file` returns false and the transcoding child process (the
`Popen` invocation) is never launched in that run; the version-query probe
children may still run. -/
theorem validate_input_empty_no_popen (e : Env) (i o t : List Char) (fs : Int) (fc : List Char)
    (h1 : e.inputExists = true) (h2 : e.inputIsFile = true) (h3 : e.inputSize = 0) :
    validate_input_file e = false
    ∧ popenLaunched (process_video e i o t fs fc).spawns = false := by
  have hvalid : validate_input_file e = false := by
    simp [validate_input_file, h1, h2, h3]
  refine ⟨hvalid, ?_⟩
  unfold process_video
  split
  · exact popen_not_in_probe_spawns e
  · rw [if_pos hvalid]
    exact popen_not_in_probe_spawns e

theorem validate_input_empty_no_popen_witness :
    validate_input_file env5 = false
    ∧ popenLaunched (process_video env5 inW outW txtW 48 colW).spawns = false :=
  validate_input_empty_no_popen env5 inW outW txtW 48 colW rfl rfl rfl

/-- C6: the frontend exits 0 when the pipeline succeeds and 1 on pipeline
failure, keyboard interrupt, or unexpected exception, while a parse error
re-exits with the parser's own code — for every environment, so no
processing influences that exit. -/
theorem main_exit_codes (c : Int) (d : Disturbance) (e : Env)
    (i o t : List Char) (fs : Int) (fc : List Char) :
    main .ok .normal e i o t fs fc
        = (if (process_video e i o t fs fc).success then 0 else 1)
    ∧ main .ok .keyboardInterrupt e i o t fs fc = 1
    ∧ main .ok .unexpectedExc e i o t fs fc = 1
    ∧ main (.err c) d e i o t fs fc = c :=
  ⟨rfl, rfl, rfl, rfl⟩

/-- C7: `validate_output_path` returns false exactly when the parent
directory is missing or unwritable; when the parent directory is fine but
the destination already exists, it returns true and the only effect is the
warning. -/
theorem validate_output_policy (e : Env) :
    ((validate_output_path e).fst = false
        ↔ (e.parentDirExists = false ∨ e.parentDirWritable = false))
    ∧ (e.parentDirExists = true → e.parentDirWritable = true → e.outputPreExists = true →
        (validate_output_path e).fst = true ∧ (validate_output_path e).snd = true) := by
  rcases e with ⟨pp, win, wm, pf, cd, rp, ie, iif, isz, pde, pdw, ope, re, rc, ro, oea, osa⟩
  cases pde <;> cases pdw <;> cases ope <;> simp [validate_output_path]

theorem validate_output_policy_witness :
    (validate_output_path env7).fst = true ∧ (validate_output_path env7).snd = true :=
  (validate_output_policy env7).2 rfl rfl rfl

/-- C8: when the tool is absent from the search path (the bare-name probe
raises FileNotFoundError or times out) and no platform fallback location
matches, `find_ffmpeg` returns the absent sentinel, on every platform. -/
theorem find_ffmpeg_absent_none (e : Env)
    (h1 : e.pathProbe = .fileNotFound ∨ e.pathProbe = .timeout)
    (h2 : e.wingetMatches = [])
    (h3 : e.programFilesHit = false)
    (h4 : e.cDriveHit = false) :
    find_ffmpeg e = none := by
  rcases h1 with h | h <;>
    cases hw : e.isWin32 <;>
      simp [find_ffmpeg, h, hw, h2, h3, h4]

theorem find_ffmpeg_absent_none_witness :
    env8.pathProbe = ProbeResult.timeout ∧ find_ffmpeg env8 = none :=
  ⟨rfl, find_ffmpeg_absent_none env8 (Or.inr rfl) rfl rfl rfl⟩

/-- C9: whenever the bare-name version probe completes within the timeout,
whatever its exit code, `find_ffmpeg` reports the bare name as found. -/
theorem find_ffmpeg_completed_found (e : Env) (c : Int)
    (h : e.pathProbe = .completed c) :
    find_ffmpeg e = some ffmpegName := by
  unfold find_ffmpeg
  rw [h]

theorem find_ffmpeg_completed_found_witness :
    env9.pathProbe = ProbeResult.completed 1 ∧ find_ffmpeg env9 = some ffmpegName :=
  ⟨rfl, find_ffmpeg_completed_found env9 1 rfl⟩

/-- C10: when the locator resolved a path but the second version probe on
that path times out or raises, `check_ffmpeg` returns the absent sentinel
and the overall `process_video` run fails. -/
theorem check_ffmpeg_second_probe_failure (e : Env) (p i o t : List Char) (fs : Int) (fc : List Char)
    (hf : find_ffmpeg e = some p)
    (h2 : e.resolvedProbe = .timeout ∨ e.resolvedProbe = .raised) :
    check_ffmpeg e = none ∧ (process_video e i o t fs fc).success = false := by
  have hc : check_ffmpeg e = none := by
    unfold check_ffmpeg
    rw [hf]
    rcases h2 with h | h <;> rw [h]
  refine ⟨hc, ?_⟩
  unfold process_video
  rw [hc]

theorem check_ffmpeg_second_probe_failure_witness :
    check_ffmpeg env10 = none
    ∧ (process_video env10 inW outW txtW 48 colW).success = false :=
  check_ffmpeg_second_probe_failure env10 ffmpegName inW outW txtW 48 colW rfl (Or.inl rfl)

end CensorVideo
